import Mathlib

/-!
Shallow embedding of the lock and safe-removal subsystems of
src/libmamba/src/core/util.cpp, together with theorems checking the
natural-language specification against this embedding.

Conventions of the embedding:
  - paths are plain strings; std::filesystem path operations that the code
    relies on (filename, extension, replace_extension) are modelled on
    strings below, following the documented std::filesystem semantics;
  - effectful functions become pure functions from an explicit environment
    (the outcomes the OS would give: existence tests, success or failure of
    remove, rename, open, fcntl) and an explicit registry state to results
    plus a list of the filesystem mutations or lock events performed;
  - thrown exceptions become Except error values.
-/

/- ## String and path primitives -/

/-- Index of the last occurrence of a character in a list of characters. -/
def lastIdxOf (c : Char) : List Char → Option Nat
  | [] => none
  | x :: xs =>
    match lastIdxOf c xs with
    | some i => some (i + 1)
    | none => if x = c then some 0 else none

/-- Whether the first list is a prefix of the second, on characters. -/
def charsPrefixOf : List Char → List Char → Bool
  | [], _ => true
  | _, [] => false
  | a :: as, b :: bs => decide (a = b) && charsPrefixOf as bs

/-- Whether s starts with pre. -/
def str_startsWith (s pre : String) : Bool :=
  charsPrefixOf pre.toList s.toList

/-- Whether s ends with suf. -/
def str_endsWith (s suf : String) : Bool :=
  charsPrefixOf suf.toList.reverse s.toList.reverse

/-- Split a string after the last occurrence of a character: the first
component keeps the separator. If the character does not occur, the first
component is empty. -/
def splitAtLast (c : Char) (s : String) : String × String :=
  match lastIdxOf c s.toList with
  | some i => (⟨s.toList.take (i + 1)⟩, ⟨s.toList.drop (i + 1)⟩)
  | none => ("", s)

/-- Split a filename into stem and extension, following
std::filesystem::path::extension: the extension starts at the last dot,
except that a leading dot (hidden file) or the special names dot and
dot-dot yield an empty extension. -/
def fileStemExt (fn : String) : String × String :=
  if fn = "." ∨ fn = ".." then (fn, "")
  else
    match lastIdxOf '.' fn.toList with
    | none => (fn, "")
    | some 0 => (fn, "")
    | some i => (⟨fn.toList.take i⟩, ⟨fn.toList.drop i⟩)

/-- Extension of a path (std::filesystem::path::extension), computed on the
component after the last slash. -/
def path_extension (p : String) : String :=
  (fileStemExt (splitAtLast '/' p).2).2

/-- Filename of a path (std::filesystem::path::filename). -/
def path_filename (p : String) : String :=
  (splitAtLast '/' p).2

/-- std::filesystem::path::replace_extension: drop the current extension of
the filename and append the replacement; a nonempty replacement that does
not begin with a dot gets a dot prepended. -/
def replace_extension (p repl : String) : String :=
  let d := (splitAtLast '/' p).1
  let stem := (fileStemExt (splitAtLast '/' p).2).1
  let repl2 := if repl = "" then "" else if str_startsWith repl "." then repl else "." ++ repl
  d ++ stem ++ repl2

/-- fs::relative(p, pfx) for the case used by the code, where p lies below
pfx: strip the prefix directory. Other inputs are returned unchanged. -/
def relative_to (p pfx : String) : String :=
  if str_startsWith p (pfx ++ "/") then ⟨p.toList.drop (pfx ++ "/").toList.length⟩ else p

/- ## File types and the weak existence test -/

/-- Result of fs::symlink_status(...).type() as far as the code inspects it. -/
inductive FType
  | notFound
  | symlinkF
  | regularF
  | directoryF
deriving DecidableEq

/-- lexists from util.cpp: weak existence via symlink_status; written with
the same (redundant) disjunction as the source, so it reports true for a
dangling symlink as well. -/
def lexists (ft : String → FType) (p : String) : Bool :=
  decide (ft p ≠ FType.notFound) || decide (ft p = FType.symlinkF)

/- ## Safe remover (remove_or_rename) -/

/-- Base quarantine name: path with its extension replaced by the extension
followed by the fixed suffix, as in remove_or_rename. -/
def trash_base_name (path : String) : String :=
  replace_extension path (path_extension path ++ ".mamba_trash")

/-- Disambiguated quarantine name: extension, then the numeric counter,
then the fixed suffix. -/
def trash_numbered_name (path : String) (fcounter : Nat) : String :=
  replace_extension path (path_extension path ++ toString fcounter ++ ".mamba_trash")

/-- The quarantine-name search loop of remove_or_rename: while the current
candidate exists, build the next numbered candidate and bump the counter,
throwing once the counter passes 100. -/
def trash_name_go (lex : String → Bool) (path : String) (current : String) (fcounter : Nat) :
    Except Unit String :=
  if lex current then
    if fcounter + 1 > 100 then Except.error ()
    else trash_name_go lex path (trash_numbered_name path fcounter) (fcounter + 1)
  else Except.ok current
termination_by 101 - fcounter
decreasing_by
  simp_wf
  omega

/-- Quarantine-name computation entry point: start from the base name with
the counter at zero. -/
def trash_name (lex : String → Bool) (path : String) : Except Unit String :=
  trash_name_go lex path (trash_base_name path) 0

/-- Errors remove_or_rename can throw. -/
inductive RRErr
  | tooManyTrash
  | couldNotDelete (msg : String)
deriving DecidableEq

/-- Filesystem mutations performed by the safe remover. -/
inductive FsMutation
  | removed (p : String)
  | renamed (src dst : String)
  | appendedIndex (line : String)
deriving DecidableEq

/-- Observable outcome of a remove_or_rename run: the returned value or
thrown error, the filesystem mutations in order, the sleeps performed (in
seconds) and the number of rename attempts made. -/
structure RROut where
  ret : Except RRErr Nat
  mutations : List FsMutation
  sleeps : List Nat
  rename_attempts : Nat

/-- Environment of a remove_or_rename run: the symlink status of every
path, whether the target is a directory, whether direct removal succeeds
and what it returns, and whether the k-th rename attempt succeeds. -/
structure RREnv where
  ftype : String → FType
  is_dir : String → Bool
  remove_ok : Bool
  remove_all_result : Nat
  remove_file_returns : Bool
  rename_ok : Nat → Bool

/-- The retry loop of remove_or_rename entered when direct removal set an
error code: recompute the quarantine name, try the rename, append the
index line on success, otherwise bump the counter, throw past 3, sleep
counter times 2 seconds and loop. -/
def rr_loop (env : RREnv) (pfx path : String) (counter : Nat) : RROut :=
  match trash_name (lexists env.ftype) path with
  | Except.error _ => ⟨Except.error RRErr.tooManyTrash, [], [], 0⟩
  | Except.ok tf =>
    if env.rename_ok counter then
      ⟨Except.ok 1, [FsMutation.renamed path tf,
                     FsMutation.appendedIndex (relative_to tf pfx)], [], 1⟩
    else if counter + 1 > 3 then
      ⟨Except.error (RRErr.couldNotDelete ("Could not delete file " ++ path)), [], [], 1⟩
    else
      let rest := rr_loop env pfx path (counter + 1)
      ⟨rest.ret, rest.mutations, (counter + 1) * 2 :: rest.sleeps, rest.rename_attempts + 1⟩
termination_by 4 - counter
decreasing_by
  simp_wf
  omega

/-- remove_or_rename from util.cpp: return 0 when the path does not weakly
exist; otherwise attempt direct removal (remove_all for directories) and,
when the OS reports an error, enter the quarantine retry loop. pfx is the
target prefix the trash index lives under. -/
def remove_or_rename (env : RREnv) (pfx path : String) : RROut :=
  if lexists env.ftype path = false then ⟨Except.ok 0, [], [], 0⟩
  else
    let result := if env.is_dir path then env.remove_all_result
                  else if env.remove_file_returns then 1 else 0
    if env.remove_ok then ⟨Except.ok result, [FsMutation.removed path], [], 0⟩
    else rr_loop env pfx path 0

/- ## Trash reclaimer (clean_trash_files) -/

/-- Environment of a clean_trash_files run: existence and removal outcomes
per path, the lines of the trash index when the index file exists, and the
results of the deep recursive scan for files with the quarantine
extension. -/
structure CleanEnv where
  fs_exists : String → Bool
  cremove_ok : String → Bool
  index_lines : Option (List String)
  trash_scan : List String

/-- Observable outcome of a clean_trash_files run. -/
structure CleanOut where
  deleted : Nat
  remaining : List String
  index_removed : Bool
  index_rewritten : Option (List String)

/-- Location of the trash index under a prefix. -/
def trash_txt_path (pfx : String) : String :=
  pfx ++ "/conda-meta/mamba_trash.txt"

/-- Shallow pass of clean_trash_files over the index lines: a listed file
counts as deleted when it no longer exists or its removal succeeds;
otherwise its relative path is kept. Returns deleted count and the kept
lines in order. -/
def clean_shallow (env : CleanEnv) (pfx : String) : List String → Nat × List String
  | [] => (0, [])
  | f :: fs =>
    let r := clean_shallow env pfx fs
    if !env.fs_exists (pfx ++ "/" ++ f) || env.cremove_ok (pfx ++ "/" ++ f) then
      (r.1 + 1, r.2)
    else
      (r.1, f :: r.2)

/-- Deep pass of clean_trash_files over the scan results: attempt removal
of every file carrying the quarantine extension, keeping the relative path
of the failures. -/
def clean_deep (env : CleanEnv) (pfx : String) : List String → Nat × List String
  | [] => (0, [])
  | p :: ps =>
    let r := clean_deep env pfx ps
    if env.cremove_ok p then (r.1 + 1, r.2) else (r.1, relative_to p pfx :: r.2)

/-- clean_trash_files from util.cpp: in shallow mode read the index (no-op
when absent) and attempt each listed file; in deep mode attempt every
scanned quarantine file; afterwards remove the index when nothing remains,
otherwise rewrite it with the remaining relative paths. -/
def clean_trash_files (env : CleanEnv) (pfx : String) (deep_clean : Bool) : CleanOut :=
  let shallow :=
    if deep_clean = false then
      match env.index_lines with
      | some ls => clean_shallow env pfx ls
      | none => (0, [])
    else (0, [])
  let deep := if deep_clean then clean_deep env pfx env.trash_scan else (0, [])
  let deleted := shallow.1 + deep.1
  let remaining := shallow.2 ++ deep.2
  if remaining = [] then ⟨deleted, remaining, true, none⟩
  else ⟨deleted, remaining, false, some remaining⟩

/- ## Lock subsystem -/

/-- Build platform, selecting between the two preprocessor branches of the
locking code. -/
inductive Platform
  | win
  | posix
deriving DecidableEq

/-- How an OS-level lock attempt blocks, as decided by set_fd_lock:
non-blocking, blocking bounded by a wall-clock timeout in seconds
(cv wait_for in timedout_set_fd_lock, or the Windows retry loop), or
unbounded blocking (plain fcntl F_SETLKW). -/
inductive BlockingMode
  | nonBlocking
  | blockingBounded (bound : Nat)
  | blockingIndefinite
deriving DecidableEq

/-- The blocking-mode decision of LockFileOwner::set_fd_lock: on Windows a
blocking attempt loops with a bound of the timeout when positive and a
default of 30 seconds otherwise; on POSIX a blocking attempt is bounded by
the timeout when it is nonzero and otherwise issues the indefinitely
blocking fcntl call. -/
def set_fd_lock_mode (platform : Platform) (timeout : Nat) (blocking : Bool) : BlockingMode :=
  match platform with
  | Platform.win =>
    if blocking then BlockingMode.blockingBounded (if 0 < timeout then timeout else 30)
    else BlockingMode.nonBlocking
  | Platform.posix =>
    if blocking then
      if timeout ≠ 0 then BlockingMode.blockingBounded timeout
      else BlockingMode.blockingIndefinite
    else BlockingMode.nonBlocking

/-- Association-list lookup, modelling unordered_map::find. -/
def assocFind {α β : Type} [DecidableEq α] (k : α) : List (α × β) → Option β
  | [] => none
  | (a, b) :: rest => if a = k then some b else assocFind k rest

/-- Association-list update, modelling unordered_map::insert_or_assign. -/
def assocInsert {α β : Type} [DecidableEq α] (k : α) (v : β) : List (α × β) → List (α × β)
  | [] => [(k, v)]
  | (a, b) :: rest => if a = k then (k, v) :: rest else (a, b) :: assocInsert k v rest

/-- A live LockFileOwner as the registry sees it: target path, marker path,
descriptor, number of strong owners (shared_ptr count) and whether the
OS-level lock is currently held. A weak reference to it is expired exactly
when owners is zero. -/
structure Handle where
  hpath : String
  lockfile : String
  hfd : Int
  owners : Nat
  osLocked : Bool
deriving DecidableEq

/-- State of the process-wide LockedFilesRegistry, with the handles it
weakly references, plus a ghost counter of OS-level lock acquisitions. -/
structure RegState where
  next_id : Nat
  handles : List (Nat × Handle)
  locked_files : List (String × Nat)
  fd_to_locked_path : List (Int × String)
  os_locks_opened : Nat
deriving DecidableEq

/-- Configuration consumed by the registry. -/
structure Ctx where
  use_lockfiles : Bool
deriving DecidableEq

/-- Environment of lock acquisition: path canonicalization and the outcomes
the OS would give to the constructor of LockFileOwner. -/
structure FsEnv where
  absolute : String → String
  fexists : String → Bool
  is_directory : String → Bool
  open_fd : String → Int
  nonblocking_ok : Bool
  blocking_ok : Bool

/-- Marker path computation of the LockFileOwner constructor: directories
get dirname.lock inside themselves, files get path.lock alongside. -/
def lockfile_path_of (env : FsEnv) (path : String) : String :=
  if env.is_directory path then path ++ "/" ++ path_filename path ++ ".lock"
  else path ++ ".lock"

/-- How the constructor ended up considering the lock acquired: via the
in-process registry shortcut (no OS call), via the non-blocking OS attempt,
or via the blocking OS attempt. -/
inductive LockVia
  | registryShortcut
  | osNonBlocking
  | osBlocking
deriving DecidableEq

/-- Fields of a successfully constructed LockFileOwner. -/
structure OwnerInit where
  m_path : String
  m_lockfile_path : String
  m_fd : Int
  m_lockfile_existed : Bool
  via : LockVia
deriving DecidableEq

/-- Errors of lock acquisition; the code classifies them all as
lockfile_failure with a message. -/
inductive LockErr
  | lockfile_failure (msg : String)
deriving DecidableEq

/-- Events of a LockFileOwner construction, in order: the marker file being
opened (created when absent), OS lock attempts, and the marker removal done
by cleanup when the marker did not pre-exist. -/
inductive CtorEvent
  | marker_opened (p : String)
  | os_nonblocking_attempt
  | os_blocking_attempt (mode : BlockingMode)
  | marker_removed (p : String)
deriving DecidableEq

/-- Message wrapper of throw_lock_error. -/
def lock_error_message (m : String) : String :=
  "LockFile acquisition failed, aborting: " ++ m

/-- Cleanup events of unlock/remove_lockfile: the marker is removed only
when it did not pre-exist. -/
def unlock_events (existed : Bool) (lfp : String) : List CtorEvent :=
  if existed then [] else [CtorEvent.marker_removed lfp]

/-- Registry query is_locked(path): the code computes the absolute path but
looks the raw argument up in the table (which acquire_lock keys by absolute
paths); a found entry reports whether its weak reference is still live. -/
def registry_is_locked_path (abs_of : String → String) (st : RegState) (p : String) : Bool :=
  let _absolute_file_path := abs_of p
  match assocFind p st.locked_files with
  | some id =>
    match assocFind id st.handles with
    | some h => decide (0 < h.owners)
    | none => false
  | none => false

/-- Registry query is_locked(fd): map the descriptor back to its path and
defer to the path query. -/
def registry_is_locked_fd (abs_of : String → String) (st : RegState) (fd : Int) : Bool :=
  match assocFind fd st.fd_to_locked_path with
  | some p => registry_is_locked_path abs_of st p
  | none => false

/-- The LockFileOwner constructor: fail on a missing target before touching
the marker; compute the marker path, remember whether it pre-existed, open
it; report locked via the registry shortcut without an OS call when the
registry already knows the marker path, otherwise try the non-blocking then
the blocking OS attempt; on failure run cleanup and throw. Returns the
constructed fields or the thrown error, together with the events. -/
def lockFileOwner_init (platform : Platform) (env : FsEnv) (st : RegState)
    (path : String) (timeout : Nat) : Except LockErr OwnerInit × List CtorEvent :=
  if env.fexists path = false then
    (Except.error (LockErr.lockfile_failure
      (lock_error_message ("Could not lock non-existing path \x27" ++ path ++ "\x27"))), [])
  else
    let lfp := lockfile_path_of env path
    let existed := env.fexists lfp
    let fd := env.open_fd lfp
    if fd ≤ 0 then
      (Except.error (LockErr.lockfile_failure
        (lock_error_message ("Could not open lockfile \x27" ++ lfp ++ "\x27"))),
       CtorEvent.marker_opened lfp :: unlock_events existed lfp)
    else if registry_is_locked_path env.absolute st lfp then
      (Except.ok ⟨path, lfp, fd, existed, LockVia.registryShortcut⟩,
       [CtorEvent.marker_opened lfp])
    else if env.nonblocking_ok then
      (Except.ok ⟨path, lfp, fd, existed, LockVia.osNonBlocking⟩,
       [CtorEvent.marker_opened lfp, CtorEvent.os_nonblocking_attempt])
    else if env.blocking_ok then
      (Except.ok ⟨path, lfp, fd, existed, LockVia.osBlocking⟩,
       [CtorEvent.marker_opened lfp, CtorEvent.os_nonblocking_attempt,
        CtorEvent.os_blocking_attempt (set_fd_lock_mode platform timeout true)])
    else
      (Except.error (LockErr.lockfile_failure
        (lock_error_message ("LockFile can\x27t be set at \x27" ++ path ++ "\x27\n"
          ++ "This could be fixed by changing the locks\x27 timeout or "
          ++ "cleaning your environment from previous runs"))),
       CtorEvent.marker_opened lfp :: CtorEvent.os_nonblocking_attempt ::
       CtorEvent.os_blocking_attempt (set_fd_lock_mode platform timeout true) ::
       unlock_events existed lfp)

/-- Result of LockedFilesRegistry::acquire_lock: the no-op sentinel (empty
shared pointer), a handle id, or a propagated construction error. -/
inductive AcqRes
  | noop
  | handle (id : Nat)
  | err (e : LockErr)
deriving DecidableEq

/-- Observable outcome of an acquire_lock call. -/
structure AcqOut where
  res : AcqRes
  st : RegState
  events : List CtorEvent
deriving DecidableEq

/-- One OS-level lock was opened unless the constructor took the in-process
registry shortcut. -/
def os_locks_of_via (v : LockVia) : Nat :=
  match v with
  | LockVia.registryShortcut => 0
  | LockVia.osNonBlocking => 1
  | LockVia.osBlocking => 1

/-- Construction path of acquire_lock: build a LockFileOwner; on success
register a weak reference under the absolute path and the descriptor and
hand the fresh handle out with one owner; on failure leave the registry
untouched and propagate the error. -/
def construct_lockfile (platform : Platform) (env : FsEnv) (st : RegState)
    (abs : String) (timeout : Nat) : AcqOut :=
  match lockFileOwner_init platform env st abs timeout with
  | (Except.error e, evs) => ⟨AcqRes.err e, st, evs⟩
  | (Except.ok oi, evs) =>
    let id := st.next_id
    ⟨AcqRes.handle id,
     { next_id := id + 1,
       handles := (id, ⟨abs, oi.m_lockfile_path, oi.m_fd, 1, true⟩) :: st.handles,
       locked_files := assocInsert abs id st.locked_files,
       fd_to_locked_path := assocInsert oi.m_fd abs st.fd_to_locked_path,
       os_locks_opened := st.os_locks_opened + os_locks_of_via oi.via },
     evs⟩

/-- LockedFilesRegistry::acquire_lock: return the no-op sentinel when
locking is disabled; otherwise canonicalize the path, and when a live entry
is found hand out a new shared reference to the same handle (one more
owner, nothing else changed); otherwise construct a new owner. -/
def acquire_lock (platform : Platform) (ctx : Ctx) (env : FsEnv) (st : RegState)
    (file_path : String) (timeout : Nat) : AcqOut :=
  if ctx.use_lockfiles = false then ⟨AcqRes.noop, st, []⟩
  else
    let abs := env.absolute file_path
    match assocFind abs st.locked_files with
    | some id =>
      match assocFind id st.handles with
      | some h =>
        if 0 < h.owners then
          ⟨AcqRes.handle id,
           { st with handles := assocInsert id { h with owners := h.owners + 1 } st.handles },
           []⟩
        else construct_lockfile platform env st abs timeout
      | none => construct_lockfile platform env st abs timeout
    | none => construct_lockfile platform env st abs timeout

/-- Dropping one strong owner of a handle, modelling shared_ptr release:
the last owner runs the destructor (OS unlock, owners to zero, the weak
registry reference becomes expired); earlier owners only decrement the
count. -/
def release (st : RegState) (id : Nat) : RegState :=
  match assocFind id st.handles with
  | none => st
  | some h =>
    if h.owners = 1 then
      { st with handles := assocInsert id { h with owners := 0, osLocked := false } st.handles }
    else
      { st with handles := assocInsert id { h with owners := h.owners - 1 } st.handles }

/- ## Concrete witness data -/

/-- Existence test where only the two quarantine candidates of the claim
scenario are taken: the base name and the first numbered name. -/
def lexC4 : String → Bool := fun s =>
  s == "foo.mamba_trash" || s == "foo.0.mamba_trash"

/-- Existence test where the base name and the first two numbered names are
taken. -/
def lexC4b : String → Bool := fun s =>
  s == "foo.mamba_trash" || s == "foo.0.mamba_trash" || s == "foo.1.mamba_trash"

/-- Existence test where every quarantine candidate is taken. -/
def lexAllTrash : String → Bool := fun s => str_endsWith s ".mamba_trash"

/-- Removal environment where nothing exists. -/
def envRRmissing : RREnv :=
  ⟨fun _ => FType.notFound, fun _ => false, true, 0, true, fun _ => true⟩

/-- Removal environment of the quarantine scenario: the held-open file
exists, direct removal fails, the rename succeeds. -/
def envC3 : RREnv :=
  ⟨fun s => if s = "/opt/env/pkgs/foo-1.0/bin/foo" then FType.regularF else FType.notFound,
   fun _ => false, false, 0, false, fun _ => true⟩

/-- Removal environment where direct removal and every rename attempt
fail. -/
def envC5 : RREnv :=
  ⟨fun s => if s = "/opt/env/pkgs/foo-1.0/bin/foo" then FType.regularF else FType.notFound,
   fun _ => false, false, 0, false, fun _ => false⟩

/-- Reclamation environment whose index lists two quarantine files, both
removable. -/
def envC8 : CleanEnv :=
  ⟨fun _ => true, fun _ => true,
   some ["pkgs/foo-1.0/bin/foo.mamba_trash", "lib/b.0.mamba_trash"], []⟩

/-- An empty registry. -/
def stEmpty : RegState := ⟨0, [], [], [], 0⟩

/-- A handle with one owner, as registered for the absolute path. -/
def hC1 : Handle := ⟨"/abs/env", "/abs/env/env.lock", 3, 1, true⟩

/-- Registry holding one live entry for the absolute path of hC1. -/
def stC1 : RegState := ⟨1, [(0, hC1)], [("/abs/env", 0)], [(3, "/abs/env")], 1⟩

/-- Registry holding the same entry with two owners. -/
def stC1b : RegState :=
  ⟨1, [(0, ⟨"/abs/env", "/abs/env/env.lock", 3, 2, true⟩)], [("/abs/env", 0)],
   [(3, "/abs/env")], 1⟩

/-- Lock environment resolving the relative name to its absolute path. -/
def envLock : FsEnv :=
  ⟨fun p => if p = "env" then "/abs/env" else p, fun _ => true, fun _ => true,
   fun _ => 4, true, true⟩

/-- Lock environment where the target does not exist. -/
def envC2 : FsEnv :=
  ⟨fun p => p, fun _ => false, fun _ => false, fun _ => 1, true, true⟩

/-- Lock environment where the target and marker exist, opening succeeds,
the non-blocking attempt fails and the blocking attempt succeeds. -/
def envC6 : FsEnv :=
  ⟨fun p => p, fun _ => true, fun _ => false, fun _ => 5, false, true⟩

/-- Lock environment prefixing relative paths with a working directory. -/
def envAbs : FsEnv :=
  ⟨fun p => if str_startsWith p "/" then p else "/cwd/" ++ p, fun _ => true, fun _ => false,
   fun _ => 7, true, true⟩

/-- Registry keyed by the absolute path only, as acquire_lock builds it. -/
def stC10 : RegState :=
  ⟨1, [(0, ⟨"/cwd/env", "/cwd/env.lock", 7, 1, true⟩)], [("/cwd/env", 0)],
   [(7, "/cwd/env")], 1⟩

/- ## Helper lemmas -/

theorem assocFind_assocInsert_self {α β : Type} [DecidableEq α] (k : α) (v : β) :
    ∀ l : List (α × β), assocFind k (assocInsert k v l) = some v := by
  intro l
  induction l with
  | nil => simp [assocInsert, assocFind]
  | cons p rest ih =>
    obtain ⟨a, b⟩ := p
    by_cases h : a = k
    · simp [assocInsert, assocFind, h]
    · simp [assocInsert, assocFind, h, ih]

theorem trash_name_base_free (lex : String → Bool) (path : String)
    (h : lex (trash_base_name path) = false) :
    trash_name lex path = Except.ok (trash_base_name path) := by
  unfold trash_name trash_name_go
  simp [h]

theorem trash_name_two_taken (lex : String → Bool) (path : String)
    (h0 : lex (trash_base_name path) = true)
    (h1 : lex (trash_numbered_name path 0) = true)
    (h2 : lex (trash_numbered_name path 1) = false) :
    trash_name lex path = Except.ok (trash_numbered_name path 1) := by
  unfold trash_name
  unfold trash_name_go
  rw [h0]
  norm_num
  unfold trash_name_go
  rw [h1]
  norm_num
  unfold trash_name_go
  rw [h2]
  norm_num

theorem trash_name_three_taken (lex : String → Bool) (path : String)
    (h0 : lex (trash_base_name path) = true)
    (h1 : lex (trash_numbered_name path 0) = true)
    (h2 : lex (trash_numbered_name path 1) = true)
    (h3 : lex (trash_numbered_name path 2) = false) :
    trash_name lex path = Except.ok (trash_numbered_name path 2) := by
  unfold trash_name
  unfold trash_name_go
  rw [h0]
  norm_num
  unfold trash_name_go
  rw [h1]
  norm_num
  unfold trash_name_go
  rw [h2]
  norm_num
  unfold trash_name_go
  rw [h3]
  norm_num

theorem trash_name_go_all_taken (lex : String → Bool) (path : String) :
    ∀ (m : Nat) (current : String) (fcounter : Nat), fcounter + m = 101 →
      lex current = true →
      (∀ j, fcounter ≤ j → j ≤ 99 → lex (trash_numbered_name path j) = true) →
      trash_name_go lex path current fcounter = Except.error () := by
  intro m
  induction m with
  | zero =>
    intro current fcounter hsum hcur _
    unfold trash_name_go
    rw [hcur]
    have : fcounter + 1 > 100 := by omega
    simp [this]
  | succ n ih =>
    intro current fcounter hsum hcur hall
    unfold trash_name_go
    rw [hcur]
    by_cases h : fcounter + 1 > 100
    · simp [h]
    · simp only [h, if_true, if_false, ite_false, ite_true]
      have hle : fcounter ≤ 99 := by omega
      exact ih (trash_numbered_name path fcounter) (fcounter + 1) (by omega)
        (hall fcounter (Nat.le_refl _) hle)
        (fun j hj1 hj2 => hall j (by omega) hj2)

theorem clean_shallow_all_removable (env : CleanEnv) (pfx : String) :
    ∀ L : List String, (∀ f ∈ L, env.cremove_ok (pfx ++ "/" ++ f) = true) →
      clean_shallow env pfx L = (L.length, []) := by
  intro L
  induction L with
  | nil => intro _; rfl
  | cons f fs ih =>
    intro h
    have hf := h f (by simp)
    have hfs := ih (fun g hg => h g (by simp [hg]))
    simp [clean_shallow, hf, hfs]

/- ## Claim theorems: safe remover and trash reclaimer -/

/-- Claim C7: when a path does not exist under the weak-existence test,
remove_or_rename returns 0 immediately, performing no filesystem mutation,
no sleep and no rename attempt; and the weak-existence test reports true
for a (dangling) symlink, since symlink_status yields the symlink type for
it. Repeating the call on an already removed path therefore returns 0
again. -/
theorem remove_or_rename_nonexistent_noop :
    (∀ (env : RREnv) (pfx path : String), lexists env.ftype path = false →
      remove_or_rename env pfx path = ⟨Except.ok 0, [], [], 0⟩)
    ∧ (∀ (ft : String → FType) (p : String), ft p = FType.symlinkF →
      lexists ft p = true) := by
  constructor
  · intro env pfx path h
    simp [remove_or_rename, h]
  · intro ft p h
    simp [lexists, h]

/-- Claim C7 witness: a concrete nonexistent path yields the untouched
zero outcome, and a concrete dangling symlink weakly exists. -/
theorem remove_or_rename_nonexistent_noop_witness :
    remove_or_rename envRRmissing "/p" "/p/x" = ⟨Except.ok 0, [], [], 0⟩
    ∧ lexists (fun _ => FType.symlinkF) "/p/dangling" = true :=
  ⟨remove_or_rename_nonexistent_noop.1 envRRmissing "/p" "/p/x" rfl,
   remove_or_rename_nonexistent_noop.2 (fun _ => FType.symlinkF) "/p/dangling" rfl⟩

/-- Claim C3: when the path weakly exists, direct removal fails and the
first rename to the computed quarantine name succeeds, remove_or_rename
renames the path, appends the quarantine path relative to the managed
prefix as one line to the trash index, and returns 1. -/
theorem remove_or_rename_rename_success_appends_index :
    ∀ (env : RREnv) (pfx path tf : String),
      lexists env.ftype path = true →
      env.remove_ok = false →
      trash_name (lexists env.ftype) path = Except.ok tf →
      env.rename_ok 0 = true →
      remove_or_rename env pfx path =
        ⟨Except.ok 1,
         [FsMutation.renamed path tf,
          FsMutation.appendedIndex (relative_to tf pfx)], [], 1⟩ := by
  intro env pfx path tf h1 h2 h3 h4
  simp only [remove_or_rename, h1, h2]
  norm_num
  unfold rr_loop
  rw [h3]
  simp [h4]

/-- Claim C3 witness: the spec scenario, a held-open file under the prefix
whose direct removal fails and whose rename succeeds; the index line is
the quarantine path relative to the prefix and the result is 1. -/
theorem remove_or_rename_rename_success_witness :
    remove_or_rename envC3 "/opt/env" "/opt/env/pkgs/foo-1.0/bin/foo" =
      ⟨Except.ok 1,
       [FsMutation.renamed "/opt/env/pkgs/foo-1.0/bin/foo"
          "/opt/env/pkgs/foo-1.0/bin/foo.mamba_trash",
        FsMutation.appendedIndex "pkgs/foo-1.0/bin/foo.mamba_trash"], [], 1⟩ :=
  remove_or_rename_rename_success_appends_index envC3 "/opt/env"
    "/opt/env/pkgs/foo-1.0/bin/foo" "/opt/env/pkgs/foo-1.0/bin/foo.mamba_trash"
    rfl rfl (trash_name_base_free _ _ rfl) rfl

/-- Claim C5: when the path weakly exists, direct removal fails, the
quarantine name is available, and every rename attempt fails,
remove_or_rename sleeps 2, 4 and 6 seconds between the attempts (attempt
number times 2), performs 4 rename attempts in total (3 additional retries
after the first failure), and throws the error naming the path. -/
theorem remove_or_rename_retry_backoff_then_fatal :
    ∀ (env : RREnv) (pfx path tf : String),
      lexists env.ftype path = true →
      env.remove_ok = false →
      trash_name (lexists env.ftype) path = Except.ok tf →
      (∀ k, env.rename_ok k = false) →
      remove_or_rename env pfx path =
        ⟨Except.error (RRErr.couldNotDelete ("Could not delete file " ++ path)),
         [], [2, 4, 6], 4⟩ := by
  intro env pfx path tf h1 h2 h3 hr
  have e3 : rr_loop env pfx path 3 =
      ⟨Except.error (RRErr.couldNotDelete ("Could not delete file " ++ path)), [], [], 1⟩ := by
    unfold rr_loop
    rw [h3]
    simp [hr 3]
  have e2 : rr_loop env pfx path 2 =
      ⟨Except.error (RRErr.couldNotDelete ("Could not delete file " ++ path)), [], [6], 2⟩ := by
    unfold rr_loop
    rw [h3]
    simp [hr 2, e3]
  have e1 : rr_loop env pfx path 1 =
      ⟨Except.error (RRErr.couldNotDelete ("Could not delete file " ++ path)), [], [4, 6], 3⟩ := by
    unfold rr_loop
    rw [h3]
    simp [hr 1, e2]
  have e0 : rr_loop env pfx path 0 =
      ⟨Except.error (RRErr.couldNotDelete ("Could not delete file " ++ path)),
       [], [2, 4, 6], 4⟩ := by
    unfold rr_loop
    rw [h3]
    simp [hr 0, e1]
  simp only [remove_or_rename, h1, h2]
  norm_num
  exact e0

/-- Claim C5 witness: with every rename failing on a concrete file, the
outcome is the fatal error naming the path after sleeps of 2, 4 and 6
seconds and 4 rename attempts. -/
theorem remove_or_rename_retry_backoff_witness :
    remove_or_rename envC5 "/opt/env" "/opt/env/pkgs/foo-1.0/bin/foo" =
      ⟨Except.error (RRErr.couldNotDelete
         ("Could not delete file " ++ "/opt/env/pkgs/foo-1.0/bin/foo")),
       [], [2, 4, 6], 4⟩ :=
  remove_or_rename_retry_backoff_then_fatal envC5 "/opt/env"
    "/opt/env/pkgs/foo-1.0/bin/foo" "/opt/env/pkgs/foo-1.0/bin/foo.mamba_trash"
    rfl rfl (trash_name_base_free _ _ rfl) (fun _ => rfl)

/-- Claim C4 counterexample: with the base quarantine name and one
disambiguated name both taken (the scenario of the claim), the name search
settles on the name with disambiguator 1, not 2: the third candidate tried
is the disambiguator-1 name. -/
theorem trash_disambiguator_counterexample :
    trash_name lexC4 "foo" = Except.ok (trash_numbered_name "foo" 1)
    ∧ trash_name lexC4 "foo" ≠ Except.ok (trash_numbered_name "foo" 2)
    ∧ lexC4 (trash_base_name "foo") = true
    ∧ lexC4 (trash_numbered_name "foo" 0) = true := by
  have h := trash_name_two_taken lexC4 "foo" rfl rfl rfl
  refine ⟨h, ?_, rfl, rfl⟩
  rw [h]
  simp only [ne_eq, Except.ok.injEq]
  decide

/-- Claim C4 (amended): when the base quarantine name is taken a numeric
disambiguator is inserted and retried while the candidate exists; with the
base name and the first disambiguated name taken, the third candidate
carries disambiguator 1; disambiguator 2 appears when the base and the
first two disambiguated names are all taken; when the base and the first
100 disambiguated candidates are all taken, the too-many-trash-files error
is raised. -/
theorem trash_disambiguation_amended :
    ∀ (lex : String → Bool) (path : String),
      (lex (trash_base_name path) = true →
       lex (trash_numbered_name path 0) = true →
       lex (trash_numbered_name path 1) = false →
       trash_name lex path = Except.ok (trash_numbered_name path 1))
      ∧ (lex (trash_base_name path) = true →
         lex (trash_numbered_name path 0) = true →
         lex (trash_numbered_name path 1) = true →
         lex (trash_numbered_name path 2) = false →
         trash_name lex path = Except.ok (trash_numbered_name path 2))
      ∧ ((lex (trash_base_name path) = true
          ∧ ∀ j, j < 100 → lex (trash_numbered_name path j) = true) →
         trash_name lex path = Except.error ()) := by
  intro lex path
  refine ⟨trash_name_two_taken lex path, trash_name_three_taken lex path, ?_⟩
  intro h
  exact trash_name_go_all_taken lex path 101 (trash_base_name path) 0 rfl h.1
    (fun j _ hj => h.2 j (by omega))

/-- Claim C4 witness: concrete existence sets realizing the three cases of
the amended claim: two names taken gives disambiguator 1, three names
taken gives disambiguator 2, everything taken raises the error. -/
theorem trash_disambiguation_amended_witness :
    trash_name lexC4 "foo" = Except.ok (trash_numbered_name "foo" 1)
    ∧ trash_name lexC4b "foo" = Except.ok (trash_numbered_name "foo" 2)
    ∧ trash_name lexAllTrash "foo" = Except.error () :=
  ⟨(trash_disambiguation_amended lexC4 "foo").1 rfl rfl rfl,
   (trash_disambiguation_amended lexC4b "foo").2.1 rfl rfl rfl rfl,
   (trash_disambiguation_amended lexAllTrash "foo").2.2 ⟨rfl, by decide⟩⟩

/-- Claim C8: with shallow reclamation on an existing index all of whose
listed files are removable, the deleted count equals the number of listed
paths, nothing remains, the index file is deleted and not rewritten; and
in any run the index file is deleted exactly when the remaining list is
empty. -/
theorem clean_trash_files_shallow_roundtrip :
    (∀ (env : CleanEnv) (pfx : String) (L : List String),
       env.index_lines = some L →
       (∀ f ∈ L, env.cremove_ok (pfx ++ "/" ++ f) = true) →
       clean_trash_files env pfx false = ⟨L.length, [], true, none⟩)
    ∧ (∀ (env : CleanEnv) (pfx : String) (deep : Bool),
       (clean_trash_files env pfx deep).index_removed = true
       ↔ (clean_trash_files env pfx deep).remaining = []) := by
  constructor
  · intro env pfx L hL hrem
    simp [clean_trash_files, hL, clean_shallow_all_removable env pfx L hrem]
  · intro env pfx deep
    unfold clean_trash_files
    by_cases h :
        ((if deep = false then
            match env.index_lines with
            | some ls => clean_shallow env pfx ls
            | none => (0, [])
          else (0, [])).2
         ++ (if deep then clean_deep env pfx env.trash_scan else (0, [])).2) = []
    · simp [h]
    · simp [h]

/-- Claim C8 witness: a two-line index with both files removable yields a
deleted count of 2, removal of the index file, and the removal condition
matches emptiness of the remaining list. -/
theorem clean_trash_files_shallow_roundtrip_witness :
    clean_trash_files envC8 "/opt/env" false = ⟨2, [], true, none⟩
    ∧ ((clean_trash_files envC8 "/opt/env" false).index_removed = true
       ↔ (clean_trash_files envC8 "/opt/env" false).remaining = []) :=
  ⟨clean_trash_files_shallow_roundtrip.1 envC8 "/opt/env"
     ["pkgs/foo-1.0/bin/foo.mamba_trash", "lib/b.0.mamba_trash"] rfl (fun _ _ => rfl),
   clean_trash_files_shallow_roundtrip.2 envC8 "/opt/env" false⟩

/- ## Claim theorems: lock subsystem -/

/-- Claim C2: when the lock target does not exist, the LockFileOwner
constructor throws the lock-target-missing error naming the path before
the marker file is opened or created: the event list is empty, so no
marker is touched. -/
theorem lock_missing_target_fails_without_marker :
    ∀ (platform : Platform) (env : FsEnv) (st : RegState) (path : String) (timeout : Nat),
      env.fexists path = false →
      lockFileOwner_init platform env st path timeout =
        (Except.error (LockErr.lockfile_failure
          (lock_error_message ("Could not lock non-existing path \x27" ++ path ++ "\x27"))),
         []) := by
  intro platform env st path timeout h
  simp [lockFileOwner_init, h]

/-- Claim C2 witness: a concrete missing path fails with the
lock-target-missing message and an empty event list. -/
theorem lock_missing_target_witness :
    lockFileOwner_init Platform.posix envC2 stEmpty "/miss" 5 =
      (Except.error (LockErr.lockfile_failure
        (lock_error_message ("Could not lock non-existing path \x27" ++ "/miss" ++ "\x27"))),
       []) :=
  lock_missing_target_fails_without_marker Platform.posix envC2 stEmpty "/miss" 5 rfl

/-- Claim C9: when locking is disabled by configuration, acquire_lock
returns the no-op sentinel with the registry state unchanged and no events
(no OS lock, no marker, no registry entry), and the sentinel is distinct
from every error result. -/
theorem acquire_lock_disabled_noop :
    ∀ (platform : Platform) (ctx : Ctx) (env : FsEnv) (st : RegState)
      (path : String) (timeout : Nat),
      ctx.use_lockfiles = false →
      acquire_lock platform ctx env st path timeout = ⟨AcqRes.noop, st, []⟩
      ∧ ∀ e, AcqRes.noop ≠ AcqRes.err e := by
  intro platform ctx env st path timeout h
  constructor
  · simp [acquire_lock, h]
  · intro e he
    exact AcqRes.noConfusion he

/-- Claim C9 witness: with locking disabled, a concrete acquisition leaves
a populated registry untouched and produces no events. -/
theorem acquire_lock_disabled_noop_witness :
    acquire_lock Platform.posix ⟨false⟩ envLock stC1 "env" 5 = ⟨AcqRes.noop, stC1, []⟩
    ∧ ∀ e, AcqRes.noop ≠ AcqRes.err e :=
  acquire_lock_disabled_noop Platform.posix ⟨false⟩ envLock stC1 "env" 5 rfl

/-- Claim C1: when the registry holds a live entry for the canonical
absolute path, a further acquire returns the same handle with one more
shared owner and otherwise leaves the state unchanged: no construction,
no events, no new OS-level lock (the ghost counter and next id are parts
of the unchanged fields). Dropping owners releases the OS lock exactly at
the last one: a release at two or more owners only decrements the count,
a release at one owner unlocks. -/
theorem acquire_lock_dedups_and_releases_on_last_owner :
    (∀ (platform : Platform) (ctx : Ctx) (env : FsEnv) (st : RegState)
       (file_path : String) (timeout : Nat) (id : Nat) (h : Handle),
       ctx.use_lockfiles = true →
       assocFind (env.absolute file_path) st.locked_files = some id →
       assocFind id st.handles = some h →
       0 < h.owners →
       acquire_lock platform ctx env st file_path timeout =
         ⟨AcqRes.handle id,
          { st with handles := assocInsert id { h with owners := h.owners + 1 } st.handles },
          []⟩)
    ∧ (∀ (st : RegState) (id : Nat) (h : Handle),
       assocFind id st.handles = some h →
       (h.owners = 1 →
         assocFind id (release st id).handles = some { h with owners := 0, osLocked := false })
       ∧ (2 ≤ h.owners →
         assocFind id (release st id).handles = some { h with owners := h.owners - 1 })) := by
  constructor
  · intro platform ctx env st file_path timeout id h hctx hfind hh hown
    simp [acquire_lock, hctx, hfind, hh, hown]
  · intro st id h hfind
    constructor
    · intro hone
      simp [release, hfind, hone, assocFind_assocInsert_self]
    · intro htwo
      have hne : ¬ h.owners = 1 := by omega
      simp [release, hfind, hne, assocFind_assocInsert_self]

/-- Claim C1 witness: with a live one-owner entry registered for the
absolute path, acquiring through the relative spelling returns the same
handle with two owners and no events; releasing the two-owner handle keeps
the OS lock with one owner, releasing the one-owner handle unlocks. -/
theorem acquire_lock_dedup_witness :
    acquire_lock Platform.posix ⟨true⟩ envLock stC1 "env" 5 =
      ⟨AcqRes.handle 0,
       { stC1 with handles :=
           (assocInsert 0 ⟨"/abs/env", "/abs/env/env.lock", 3, 2, true⟩ stC1.handles) },
       []⟩
    ∧ assocFind 0 (release stC1b 0).handles =
        some ⟨"/abs/env", "/abs/env/env.lock", 3, 1, true⟩
    ∧ assocFind 0 (release stC1 0).handles =
        some ⟨"/abs/env", "/abs/env/env.lock", 3, 0, false⟩ :=
  ⟨acquire_lock_dedups_and_releases_on_last_owner.1 Platform.posix ⟨true⟩ envLock stC1
     "env" 5 0 hC1 rfl rfl rfl (by decide),
   (acquire_lock_dedups_and_releases_on_last_owner.2 stC1b 0
     ⟨"/abs/env", "/abs/env/env.lock", 3, 2, true⟩ rfl).2 (by decide),
   (acquire_lock_dedups_and_releases_on_last_owner.2 stC1 0 hC1 rfl).1 rfl⟩

/-- Claim C10: the path-based registry query computes the absolute path
but looks the table up under the path exactly as given; entries are keyed
by absolute paths, so a relative spelling whose absolute form has a live
entry reports unlocked while the absolute spelling reports locked. -/
theorem is_locked_uses_raw_path :
    ∀ (env : FsEnv) (st : RegState) (rel : String) (id : Nat) (h : Handle),
      assocFind rel st.locked_files = none →
      assocFind (env.absolute rel) st.locked_files = some id →
      assocFind id st.handles = some h →
      0 < h.owners →
      registry_is_locked_path env.absolute st rel = false
      ∧ registry_is_locked_path env.absolute st (env.absolute rel) = true := by
  intro env st rel id h h1 h2 h3 h4
  constructor
  · simp [registry_is_locked_path, h1]
  · simp [registry_is_locked_path, h2, h3, h4]

/-- Claim C10 witness: a registry keyed by the absolute path reports false
for the relative spelling and true for the absolute spelling of the same
live lock. -/
theorem is_locked_uses_raw_path_witness :
    registry_is_locked_path envAbs.absolute stC10 "env" = false
    ∧ registry_is_locked_path envAbs.absolute stC10 (envAbs.absolute "env") = true :=
  is_locked_uses_raw_path envAbs stC10 "env" 0
    ⟨"/cwd/env", "/cwd/env.lock", 7, 1, true⟩ rfl rfl rfl (by decide)

/-- Claim C6 counterexample: the zero-timeout blocking attempt is not
indefinite on every build: on Windows, set_fd_lock replaces a zero timeout
by the default 30-second bound. -/
theorem zero_timeout_not_indefinite_on_windows :
    ¬ (∀ platform : Platform,
        set_fd_lock_mode platform 0 true = BlockingMode.blockingIndefinite) := by
  intro h
  have hw := h Platform.win
  simp [set_fd_lock_mode] at hw

/-- Claim C6 (amended): when the non-blocking attempt fails (and the
registry shortcut does not apply), the constructor makes a blocking
attempt whose mode is decided by set_fd_lock from the handle timeout; on
POSIX a nonzero timeout bounds the blocking attempt and a zero timeout
blocks indefinitely (plain F_SETLKW, subject only to external
cancellation), while on Windows the attempt is always bounded, by the
timeout when positive and by a default of 30 seconds when zero. -/
theorem blocking_fallback_modes_amended :
    (∀ (platform : Platform) (env : FsEnv) (st : RegState) (path : String) (timeout : Nat),
       env.fexists path = true →
       0 < env.open_fd (lockfile_path_of env path) →
       registry_is_locked_path env.absolute st (lockfile_path_of env path) = false →
       env.nonblocking_ok = false →
       CtorEvent.os_blocking_attempt (set_fd_lock_mode platform timeout true)
         ∈ (lockFileOwner_init platform env st path timeout).2)
    ∧ (∀ t : Nat, t ≠ 0 →
       set_fd_lock_mode Platform.posix t true = BlockingMode.blockingBounded t)
    ∧ set_fd_lock_mode Platform.posix 0 true = BlockingMode.blockingIndefinite
    ∧ (∀ t : Nat, set_fd_lock_mode Platform.win t true
        = BlockingMode.blockingBounded (if 0 < t then t else 30)) := by
  refine ⟨?_, ?_, rfl, fun t => rfl⟩
  · intro platform env st path timeout h1 h2 h3 h4
    have hfd : ¬ env.open_fd (lockfile_path_of env path) ≤ 0 := by omega
    by_cases hb : env.blocking_ok
    · simp [lockFileOwner_init, h1, hfd, h3, h4, hb]
    · simp [lockFileOwner_init, h1, hfd, h3, h4, hb]
  · intro t ht
    simp [set_fd_lock_mode, ht]

/-- Claim C6 witness: on POSIX with a zero timeout and a failing
non-blocking attempt, the constructor performs an indefinitely blocking
attempt; bounded modes at concrete nonzero and Windows timeouts. -/
theorem blocking_fallback_modes_witness :
    CtorEvent.os_blocking_attempt BlockingMode.blockingIndefinite
      ∈ (lockFileOwner_init Platform.posix envC6 stEmpty "/target" 0).2
    ∧ set_fd_lock_mode Platform.posix 7 true = BlockingMode.blockingBounded 7
    ∧ set_fd_lock_mode Platform.win 0 true = BlockingMode.blockingBounded 30 :=
  ⟨blocking_fallback_modes_amended.1 Platform.posix envC6 stEmpty "/target" 0
     rfl (by decide) rfl rfl,
   blocking_fallback_modes_amended.2.1 7 (by decide),
   blocking_fallback_modes_amended.2.2.2 0⟩
